import Mathlib

/-!
Verification of the PyCog automaton engine against its specification.

The definitions below are a shallow embedding of the engine code:

* `src/packages/pycog/exceptions.py`   -> `Exc`, `PDFault`
* `src/packages/pycog/statemachine.py` -> `StateRec`, `Machine`, `Cfg`,
  `allowed_transitions`, `smTransition`, `smRunAux`, `smRun`
* `src/packages/pycog/pushdown.py`     -> `PDMachine`, `PDCfg`, `pdPush`,
  `pdPop`, `pdTransition`, `pdRunAux`, `pdRun`, `pd_accept_test`
* `src/packages/pycog/inputtape.py`    -> `tape_accept_test`
* `src/packages/pycog/backtrack.py`    -> `StateOccurrence`, `BTCfg`,
  `btRunAux`, `btRun`

Notification hooks (`on_enter_state`, `on_exit_state`, `on_transition`,
`on_pre_select_transition`, `on_no_transition`, `on_accept`, `on_reject`,
`on_suspend_state`, `on_resume_state`, `on_init_frame`) are modelled as
events recorded in a trace, in the order the engine invokes them; the
invocation of a state activity is likewise marked with an `act` event so
that orderings between activities and hooks are visible in the trace.
Python exceptions used as control flow (`Accept`, `Reject`, `Backtrack`)
are values of `Exc`; the run loop is given explicit fuel.
-/

deriving instance DecidableEq for Except

namespace PyCog

/-- Control-flow signals from `pycog/exceptions.py`: `Accept`, `Reject`,
`Backtrack`.  A `Reject` raised by the engine's default `on_no_transition`
formats the stuck state into its message
(`"Cannot transition from state ..."`); that state is carried here as the
`some` payload, while caller-raised rejects carry `none`. -/
inductive Exc (S : Type) where
  | accept : Exc S
  | reject (noTransFrom : Option S) : Exc S
  | backtrack : Exc S
  deriving DecidableEq

/-- Observable events: one per notification hook invocation, plus `act`
marking that a state's activity was invoked. -/
inductive Ev (S : Type) where
  | enter (s : S)
  | exit (s : S)
  | act (s : S)
  | preSelect (s : S) (cands : List S)
  | trans (src : S) (dst : S)
  | noTrans (s : S)
  | accepted
  | rejected (diag : Option S)
  | suspend (s : S)
  | resume (s : S)
  | initFrame
  deriving DecidableEq

variable {α : Type} {S : Type}

/-- `_StateRecord`: a state's activity, guard, ordered transition list and
per-target transition test (`transition_info`).  An activity mutates the
caller-owned data and may raise a signal; a state with `activity == None`
is modelled by `fun a => (a, none)`. -/
structure StateRec (α : Type) (S : Type) where
  activity : α → α × Option (Exc S)
  guard : α → Bool
  transitions : List S
  test : S → α → Bool

/-- `StateMachine`: the state table (`_state_records`) and the
`select_transition` method (overridable; the default is
`select_transition_default`). -/
structure Machine (α : Type) (S : Type) where
  records : S → StateRec α S
  select : S → List S → S

/-- `StateMachine.select_transition`: return `candidate_s_names[0]`.  It is
only ever invoked on a non-empty candidate list. -/
def select_transition_default [Inhabited S] : S → List S → S :=
  fun _ cands => cands.headI

/-- Machine configuration: caller data plus `_current_state`. -/
structure Cfg (α : Type) (S : Type) where
  app : α
  cur : S
  deriving DecidableEq

/-- The transition-collection loop of `StateMachine._transition`: walk the
declared transitions in order, appending each target whose `test` passes
and whose target `guard` admits entry. -/
def allowedAux (m : Machine α S) (a : α) (s : S) : List S → List S → List S
  | [], acc => acc
  | t :: ts, acc =>
    if (m.records s).test t a then
      if (m.records t).guard a then allowedAux m a s ts (acc ++ [t])
      else allowedAux m a s ts acc
    else allowedAux m a s ts acc

/-- The `allowed_transitions` list computed by `StateMachine._transition`. -/
def allowed_transitions (m : Machine α S) (a : α) (s : S) : List S :=
  allowedAux m a s (m.records s).transitions []

/-- `StateMachine._transition`: compute `allowed_transitions`; if empty,
invoke `on_no_transition` (default behaviour: raise
`Reject("Cannot transition from state ...")`); otherwise fire the exit
notification, the pre-select notification, select one candidate, fire the
transition notification, set the current state and fire the entry
notification (`_transition_multiple` / `_do_transition` / `_enter`). -/
def smTransition (m : Machine α S) (c : Cfg α S) :
    List (Ev S) × Except (Exc S) (Cfg α S) :=
  let allowed := allowed_transitions m c.app c.cur
  if allowed.isEmpty then
    ([Ev.noTrans c.cur], Except.error (Exc.reject (some c.cur)))
  else
    let next := m.select c.cur allowed
    ([Ev.exit c.cur, Ev.preSelect c.cur allowed, Ev.trans c.cur next,
      Ev.enter next],
     Except.ok ⟨c.app, next⟩)

/-- Outcome of the `_run` loop: a propagating signal, an `AttributeError`
escape, or fuel exhaustion (the loop itself never terminates normally). -/
inductive AuxOut (S : Type) where
  | sig (e : Exc S)
  | attrError
  | fuelOut
  deriving DecidableEq

/-- The `while True` loop of `StateMachine._run`: run the current state's
activity (`_do_activity`), then `_transition`.  `Accept` and `Reject`
propagate.  A raised `Backtrack` is caught and the code calls
`self._backtrack()`; `StateMachine` defines no `_backtrack`, so on a
machine without the `Backtracking` mix-in that attribute lookup raises
`AttributeError`, modelled as `AuxOut.attrError`. -/
def smRunAux (m : Machine α S) : Nat → Cfg α S → List (Ev S) × Cfg α S × AuxOut S
  | 0, c => ([], c, AuxOut.fuelOut)
  | fuel + 1, c =>
    let r := (m.records c.cur).activity c.app
    let c1 : Cfg α S := ⟨r.1, c.cur⟩
    match r.2 with
    | some Exc.backtrack => ([Ev.act c.cur], c1, AuxOut.attrError)
    | some e => ([Ev.act c.cur], c1, AuxOut.sig e)
    | none =>
      match smTransition m c1 with
      | (tr, Except.error Exc.backtrack) =>
          (Ev.act c.cur :: tr, c1, AuxOut.attrError)
      | (tr, Except.error e) => (Ev.act c.cur :: tr, c1, AuxOut.sig e)
      | (tr, Except.ok c2) =>
        let rest := smRunAux m fuel c2
        (Ev.act c.cur :: tr ++ rest.1, rest.2)

/-- Result of `StateMachine.run`: `True` (accepted), `False` (rejected), an
escaping `AttributeError`, or fuel exhaustion of the model. -/
inductive RunResult where
  | accepted
  | rejected
  | attrError
  | fuelOut
  deriving DecidableEq

/-- `StateMachine.run`: `_run` first fires the entry notification for the
start state, then loops; `run` catches `Accept` / `Reject`, fires the exit
notification for the then-current state and then the single
`on_accept` / `on_reject` notification.  Anything else escapes uncaught. -/
def smRun (m : Machine α S) (fuel : Nat) (a : α) (start : S) :
    List (Ev S) × Cfg α S × RunResult :=
  let r := smRunAux m fuel ⟨a, start⟩
  match r.2.2 with
  | AuxOut.sig Exc.accept =>
      (Ev.enter start :: r.1 ++ [Ev.exit r.2.1.cur, Ev.accepted], r.2.1,
       RunResult.accepted)
  | AuxOut.sig (Exc.reject d) =>
      (Ev.enter start :: r.1 ++ [Ev.exit r.2.1.cur, Ev.rejected d], r.2.1,
       RunResult.rejected)
  | AuxOut.sig Exc.backtrack => (Ev.enter start :: r.1, r.2.1, RunResult.attrError)
  | AuxOut.attrError => (Ev.enter start :: r.1, r.2.1, RunResult.attrError)
  | AuxOut.fuelOut => (Ev.enter start :: r.1, r.2.1, RunResult.fuelOut)

/-- The state named by an entry notification, if any. -/
def entered? : Ev S → Option S
  | Ev.enter s => some s
  | _ => none

/-- Whether the first occurrence of `e1` in the trace comes strictly before
any occurrence of `e2`. -/
def firstBefore [DecidableEq S] : List (Ev S) → Ev S → Ev S → Bool
  | [], _, _ => false
  | e :: tr, e1, e2 =>
    if e = e1 then decide (e2 ∈ tr)
    else if e = e2 then false
    else firstBefore tr e1 e2

/-! ## Pushdown extension (`pycog/pushdown.py`) -/

/-- `PushDown` adds the per-state dictionary entries written by the
`push_state` / `pop_state` decorators: `_push_state`, `_resume_state` and
`_pop_state`.  A missing key reads as false / absent (the `KeyError` is
caught and passed in `PushDown._transition`). -/
structure PDMachine (α : Type) (S : Type) extends Machine α S where
  isPush : S → Bool
  resumeOf : S → Option S
  isPop : S → Bool

/-- `PushDown` configuration: caller data, `_current_state`, the frame
stack and the active frame.  Of a `Frame` only the engine-owned `state`
attribute is modelled; it is `none` between frame creation and the next
state entry.  The top of `stack` is the head of the list. -/
structure PDCfg (α : Type) (S : Type) where
  app : α
  cur : S
  stack : List (Option S)
  frame : Option S
  deriving DecidableEq

/-- `_do_transition` / `_enter` under `PushDown.on_enter_state`: set the
current state, record it in the active frame, fire the entry
notification. -/
def pdEnter (c : PDCfg α S) (s : S) : List (Ev S) × PDCfg α S :=
  ([Ev.enter s], ⟨c.app, s, c.stack, some s⟩)

/-- `PushDown._push`: fire the suspend notification for the current state
(`_suspend`; the `_bt_suspend_state` branch is dead code, nothing in the
code base defines that attribute), push the active frame, create a fresh
frame, fire `on_init_frame` for it, and clear its recorded state. -/
def pdPush (c : PDCfg α S) : List (Ev S) × PDCfg α S :=
  ([Ev.suspend c.cur, Ev.initFrame],
   ⟨c.app, c.cur, c.frame :: c.stack, none⟩)

/-- Faults that can escape the pushdown engine: a control signal, the
`StateStackEmpty` raised by `_pop` on an empty stack, or the `KeyError`
Python would raise when a popped frame has no usable recorded state or the
restored state has no `_resume_state` entry. -/
inductive PDFault (S : Type) where
  | sig (e : Exc S)
  | stateStackEmpty
  | keyError
  deriving DecidableEq

/-- `PushDown._pop`: raise `StateStackEmpty` if the stack is empty;
otherwise fire the exit notification, pop the frame stack, restore the
popped frame's recorded state as current, fire the resume notification
(`_resume`), and transition directly into that state's `_resume_state`
target via `_do_transition`. -/
def pdPop (m : PDMachine α S) (c : PDCfg α S) :
    List (Ev S) × Except (PDFault S) (PDCfg α S) :=
  match c.stack with
  | [] => ([], Except.error PDFault.stateStackEmpty)
  | f :: rest =>
    match f with
    | none => ([Ev.exit c.cur], Except.error PDFault.keyError)
    | some s =>
      match m.resumeOf s with
      | none => ([Ev.exit c.cur, Ev.resume s], Except.error PDFault.keyError)
      | some nxt =>
        let c2 := pdEnter ⟨c.app, s, rest, f⟩ nxt
        ([Ev.exit c.cur, Ev.resume s] ++ c2.1, Except.ok c2.2)

/-- `StateMachine._transition` as inherited by `PushDown`: identical to
`smTransition` except that the entry notification goes through the
overridden `on_enter_state`, which records the entered state in the active
frame. -/
def pdBaseTransition (m : PDMachine α S) (c : PDCfg α S) :
    List (Ev S) × Except (PDFault S) (PDCfg α S) :=
  let allowed := allowed_transitions m.toMachine c.app c.cur
  if allowed.isEmpty then
    ([Ev.noTrans c.cur], Except.error (PDFault.sig (Exc.reject (some c.cur))))
  else
    let next := m.select c.cur allowed
    let c2 := pdEnter c next
    ([Ev.exit c.cur, Ev.preSelect c.cur allowed, Ev.trans c.cur next] ++ c2.1,
     Except.ok c2.2)

/-- `PushDown._transition`: if the current state is a push state, `_push`
first; then, if it is a pop state, `_pop` and return; otherwise fall
through to the inherited transition step. -/
def pdTransition (m : PDMachine α S) (c : PDCfg α S) :
    List (Ev S) × Except (PDFault S) (PDCfg α S) :=
  let p := if m.isPush c.cur then pdPush c else ([], c)
  if m.isPop p.2.cur then
    let r := pdPop m p.2
    (p.1 ++ r.1, r.2)
  else
    let r := pdBaseTransition m p.2
    (p.1 ++ r.1, r.2)

/-- Outcome of `PushDown._run`'s loop. -/
inductive PDAuxOut (S : Type) where
  | fault (f : PDFault S)
  | attrError
  | fuelOut
  deriving DecidableEq

/-- The `_run` loop for a `PushDown` machine: activity, then
`PushDown._transition`.  As in the base class, a raised `Backtrack` leads
to the undefined `self._backtrack()` and hence an `AttributeError`;
`StateStackEmpty` and `KeyError` are not caught by the loop. -/
def pdRunAux (m : PDMachine α S) :
    Nat → PDCfg α S → List (Ev S) × PDCfg α S × PDAuxOut S
  | 0, c => ([], c, PDAuxOut.fuelOut)
  | fuel + 1, c =>
    let r := (m.records c.cur).activity c.app
    let c1 : PDCfg α S := ⟨r.1, c.cur, c.stack, c.frame⟩
    match r.2 with
    | some Exc.backtrack => ([Ev.act c.cur], c1, PDAuxOut.attrError)
    | some e => ([Ev.act c.cur], c1, PDAuxOut.fault (PDFault.sig e))
    | none =>
      match pdTransition m c1 with
      | (tr, Except.error (PDFault.sig Exc.backtrack)) =>
          (Ev.act c.cur :: tr, c1, PDAuxOut.attrError)
      | (tr, Except.error f) => (Ev.act c.cur :: tr, c1, PDAuxOut.fault f)
      | (tr, Except.ok c2) =>
        let rest := pdRunAux m fuel c2
        (Ev.act c.cur :: tr ++ rest.1, rest.2)

/-- Result of `run()` on a `PushDown` machine.  `StateStackEmpty` and
`KeyError` are distinct escapes: `run` catches only `Accept` and
`Reject`. -/
inductive PDRunResult where
  | accepted
  | rejected
  | stateStackError
  | keyError
  | attrError
  | fuelOut
  deriving DecidableEq

/-- `run()` on a `PushDown` machine, started from configuration `c0`
(`_run` fires the entry notification for the start state through the
overridden `on_enter_state` first).  Only `Accept` and `Reject` are
caught and turned into the exit plus `on_accept` / `on_reject`
notifications; `StateStackEmpty` escapes as a distinct error. -/
def pdRun (m : PDMachine α S) (fuel : Nat) (c0 : PDCfg α S) :
    List (Ev S) × PDCfg α S × PDRunResult :=
  let e := pdEnter c0 c0.cur
  let r := pdRunAux m fuel e.2
  match r.2.2 with
  | PDAuxOut.fault (PDFault.sig Exc.accept) =>
      (e.1 ++ r.1 ++ [Ev.exit r.2.1.cur, Ev.accepted], r.2.1,
       PDRunResult.accepted)
  | PDAuxOut.fault (PDFault.sig (Exc.reject d)) =>
      (e.1 ++ r.1 ++ [Ev.exit r.2.1.cur, Ev.rejected d], r.2.1,
       PDRunResult.rejected)
  | PDAuxOut.fault (PDFault.sig Exc.backtrack) =>
      (e.1 ++ r.1, r.2.1, PDRunResult.attrError)
  | PDAuxOut.fault PDFault.stateStackEmpty =>
      (e.1 ++ r.1, r.2.1, PDRunResult.stateStackError)
  | PDAuxOut.fault PDFault.keyError => (e.1 ++ r.1, r.2.1, PDRunResult.keyError)
  | PDAuxOut.attrError => (e.1 ++ r.1, r.2.1, PDRunResult.attrError)
  | PDAuxOut.fuelOut => (e.1 ++ r.1, r.2.1, PDRunResult.fuelOut)

/-- `StateMachine.accept_test`: always `True`. -/
def sm_accept_test : Bool := true

/-- `PushDown.accept_test`: `False` whenever the frame stack is non-empty,
otherwise defer to the next `accept_test` in the resolution order. -/
def pd_accept_test (c : PDCfg α S) (superTest : Bool) : Bool :=
  if c.stack.length > 0 then false else superTest

/-- `InputTape.accept_test`: `False` unless the current symbol is the empty
string (end of input), otherwise defer. -/
def tape_accept_test (symbol : String) (superTest : Bool) : Bool :=
  if symbol ≠ "" then false else superTest

/-! ## Backtracking extension (`pycog/backtrack.py`)

The `Backtracking` mix-in was written against a superseded engine
interface: `_backtrack` begins with `self.exit()` and reads
`self.state_name`, neither of which exists on `StateMachine` (which has
`_exit` and `current_state`), and its capture hooks
`_bt_on_enter_state` / `_bt_select_transition` are never invoked anywhere
in the code base (`StateMachine._enter` calls only `on_enter_state`, and
`_transition_multiple` calls `select_transition` directly, with two
arguments).  The embedding below is faithful to that: the track is
threaded through the run unchanged, and a raised `Backtrack` reaches
`self._backtrack()`, whose first statement `self.exit()` raises
`AttributeError`. -/

/-- `StateOccurrence`: one visit to a state, with its remaining untried
transitions. -/
structure StateOccurrence (S : Type) where
  state_name : S
  transitions : List S
  deriving DecidableEq

/-- Configuration of a machine built from `StateMachine` plus the
`Backtracking` mix-in: the base configuration and the `track`
(`Track.occurrences`, most recent last). -/
structure BTCfg (α : Type) (S : Type) where
  app : α
  cur : S
  track : List (StateOccurrence S)
  deriving DecidableEq

/-- The `_run` loop on a machine with the `Backtracking` mix-in.  No
engine code appends to or consumes the track; on a raised `Backtrack`,
`self._backtrack()` resolves to `Backtracking._backtrack`, whose first
statement `self.exit()` raises `AttributeError` (no such attribute on the
combined class), so the run aborts before scanning the track. -/
def btRunAux (m : Machine α S) :
    Nat → BTCfg α S → List (Ev S) × BTCfg α S × AuxOut S
  | 0, c => ([], c, AuxOut.fuelOut)
  | fuel + 1, c =>
    let r := (m.records c.cur).activity c.app
    let c1 : BTCfg α S := ⟨r.1, c.cur, c.track⟩
    match r.2 with
    | some Exc.backtrack => ([Ev.act c.cur], c1, AuxOut.attrError)
    | some e => ([Ev.act c.cur], c1, AuxOut.sig e)
    | none =>
      match smTransition m ⟨c1.app, c1.cur⟩ with
      | (tr, Except.error Exc.backtrack) =>
          (Ev.act c.cur :: tr, c1, AuxOut.attrError)
      | (tr, Except.error e) => (Ev.act c.cur :: tr, c1, AuxOut.sig e)
      | (tr, Except.ok c2) =>
        let rest := btRunAux m fuel ⟨c2.app, c2.cur, c1.track⟩
        (Ev.act c.cur :: tr ++ rest.1, rest.2)

/-- `run()` on a machine with the `Backtracking` mix-in. -/
def btRun (m : Machine α S) (fuel : Nat) (c0 : BTCfg α S) :
    List (Ev S) × BTCfg α S × RunResult :=
  let r := btRunAux m fuel c0
  match r.2.2 with
  | AuxOut.sig Exc.accept =>
      (Ev.enter c0.cur :: r.1 ++ [Ev.exit r.2.1.cur, Ev.accepted], r.2.1,
       RunResult.accepted)
  | AuxOut.sig (Exc.reject d) =>
      (Ev.enter c0.cur :: r.1 ++ [Ev.exit r.2.1.cur, Ev.rejected d], r.2.1,
       RunResult.rejected)
  | AuxOut.sig Exc.backtrack => (Ev.enter c0.cur :: r.1, r.2.1, RunResult.attrError)
  | AuxOut.attrError => (Ev.enter c0.cur :: r.1, r.2.1, RunResult.attrError)
  | AuxOut.fuelOut => (Ev.enter c0.cur :: r.1, r.2.1, RunResult.fuelOut)

/-! ## Concrete machines used to evaluate the model -/

/-- A state record with no activity, an always-true guard and no outgoing
transitions (the `_StateRecord` defaults). -/
def defaultRec : StateRec Unit Nat where
  activity := fun a => (a, none)
  guard := fun _ => true
  transitions := []
  test := fun _ _ => false

/-- Machine with start state `0` declaring transitions to `1` and `2`,
both tests true; state `1` has an always-false guard, state `2` accepts. -/
def mGuard : Machine Unit Nat where
  records := fun s =>
    if s = 0 then
      { defaultRec with transitions := [1, 2], test := fun _ _ => true }
    else if s = 1 then
      { defaultRec with guard := fun _ => false }
    else
      { defaultRec with activity := fun a => (a, some Exc.accept) }
  select := select_transition_default

/-- Machine whose start state `0` has a single transition whose test
passes but whose target state `1` has an always-false guard: no
admissible transition exists. -/
def mStuck : Machine Unit Nat where
  records := fun s =>
    if s = 0 then
      { defaultRec with transitions := [1], test := fun _ _ => true }
    else
      { defaultRec with guard := fun _ => false }
  select := select_transition_default

/-- Machine whose single state's activity raises `Accept` immediately. -/
def mAccept : Machine Unit Nat where
  records := fun _ => { defaultRec with activity := fun a => (a, some Exc.accept) }
  select := select_transition_default

/-- Machine whose single state's activity raises `Backtrack`; the machine
has no `Backtracking` mix-in. -/
def mBktSignal : Machine Unit Nat where
  records := fun _ =>
    { defaultRec with activity := fun a => (a, some Exc.backtrack) }
  select := select_transition_default

/-- Linear machine `0 -> 1 -> 2`, all tests and guards true, state `2`
accepting via its activity. -/
def mLine : Machine Unit Nat where
  records := fun s =>
    if s = 0 then
      { defaultRec with transitions := [1], test := fun _ _ => true }
    else if s = 1 then
      { defaultRec with transitions := [2], test := fun _ _ => true }
    else
      { defaultRec with activity := fun a => (a, some Exc.accept) }
  select := select_transition_default

/-- Pushdown machine: state `1` is a push state (resume target `2`) with a
transition to state `2`, whose activity raises `Accept`. -/
def mPush : PDMachine Unit Nat where
  records := fun s =>
    if s = 1 then
      { defaultRec with transitions := [2], test := fun _ _ => true }
    else if s = 2 then
      { defaultRec with activity := fun a => (a, some Exc.accept) }
    else
      defaultRec
  select := select_transition_default
  isPush := fun s => s = 1
  resumeOf := fun s => if s = 1 then some 2 else none
  isPop := fun _ => false

/-- Pushdown machine whose start state `0` is a pop state. -/
def mPop : PDMachine Unit Nat where
  records := fun _ => defaultRec
  select := select_transition_default
  isPush := fun _ => false
  resumeOf := fun _ => none
  isPop := fun s => s = 0

/-! ## Helper lemmas -/

/-- The transition-collection loop accumulates exactly the declared
transitions passing both the test and the target guard, in declaration
order. -/
theorem allowedAux_eq_filter (m : Machine α S) (a : α) (s : S)
    (l acc : List S) :
    allowedAux m a s l acc =
      acc ++ l.filter (fun t => (m.records s).test t a && (m.records t).guard a) := by
  induction l generalizing acc with
  | nil => simp [allowedAux]
  | cons t ts ih =>
    by_cases h1 : (m.records s).test t a = true
    · by_cases h2 : (m.records t).guard a = true
      · simp [allowedAux, h1, h2, ih, List.filter_cons]
      · simp [allowedAux, h1, h2, ih, List.filter_cons]
    · simp [allowedAux, h1, ih, List.filter_cons]

/-- `allowed_transitions` is the in-order filter of the declared
transitions by test and target guard. -/
theorem allowed_transitions_eq_filter (m : Machine α S) (a : α) (s : S) :
    allowed_transitions m a s =
      (m.records s).transitions.filter
        (fun t => (m.records s).test t a && (m.records t).guard a) := by
  simpa using allowedAux_eq_filter m a s (m.records s).transitions []

/-- The events fired by `StateMachine._transition` never include terminal
accept or reject notifications. -/
theorem smTransition_no_terminal (m : Machine α S) (c : Cfg α S) :
    ∀ e ∈ (smTransition m c).1, e ≠ Ev.accepted ∧ ∀ d, e ≠ Ev.rejected d := by
  intro e he
  simp only [smTransition] at he
  split at he
  · simp only [List.mem_singleton] at he
    subst he; simp
  · simp only [List.mem_cons, List.not_mem_nil, or_false] at he
    rcases he with rfl | rfl | rfl | rfl <;> simp

/-- The events fired inside the `_run` loop never include terminal accept
or reject notifications: those are fired only by `run` itself. -/
theorem smRunAux_no_terminal (m : Machine α S) (fuel : Nat) (c : Cfg α S) :
    ∀ e ∈ (smRunAux m fuel c).1, e ≠ Ev.accepted ∧ ∀ d, e ≠ Ev.rejected d := by
  induction fuel generalizing c with
  | zero => simp [smRunAux]
  | succ n ih =>
    intro e he
    rcases hact : (m.records c.cur).activity c.app with ⟨a1, sig⟩
    rcases htr : smTransition m ⟨a1, c.cur⟩ with ⟨tr, res⟩
    have htr1 : ∀ x ∈ tr, x ≠ Ev.accepted ∧ ∀ d, x ≠ Ev.rejected d := by
      intro x hx
      exact smTransition_no_terminal m ⟨a1, c.cur⟩ x (by rw [htr]; exact hx)
    simp only [smRunAux, hact] at he
    cases sig with
    | some ex =>
      cases ex <;> simp only [List.mem_singleton] at he <;> subst he <;> simp
    | none =>
      rw [htr] at he
      cases res with
      | error ex =>
        have he2 : e = Ev.act c.cur ∨ e ∈ tr := by
          cases ex <;> simpa using he
        rcases he2 with rfl | h
        · simp
        · exact htr1 e h
      | ok c2 =>
        have he2 : e = Ev.act c.cur ∨ e ∈ tr ∨ e ∈ (smRunAux m n c2).1 := by
          simpa [List.mem_append, or_assoc] using he
        rcases he2 with rfl | h | h
        · simp
        · exact htr1 e h
        · exact ih c2 e h

/-! ## Claim theorems -/

/-- Claim C1: for every machine and current state `s`, the
eligible-transition list computed during a transition step contains
exactly the targets `t`, in the declaration order of `s`'s transitions,
for which the transition's test and `t`'s guard both return true; a state
whose guard returns false never appears in the list, and (under the
default selection) the state entered by the step is always a member of the
list, so such a state is never entered. -/
theorem eligible_transitions_characterized [Inhabited S] (m : Machine α S)
    (a : α) (s t : S) :
    (t ∈ allowed_transitions m a s ↔
      t ∈ (m.records s).transitions ∧ (m.records s).test t a = true ∧
        (m.records t).guard a = true) ∧
    allowed_transitions m a s =
      (m.records s).transitions.filter
        (fun u => (m.records s).test u a && (m.records u).guard a) ∧
    ((m.records t).guard a = false → t ∉ allowed_transitions m a s) ∧
    ∀ tr c2, m.select = select_transition_default →
      smTransition m ⟨a, s⟩ = (tr, Except.ok c2) →
      c2.cur ∈ allowed_transitions m a s := by
  have hfil := allowed_transitions_eq_filter m a s
  have hmem : t ∈ allowed_transitions m a s ↔
      t ∈ (m.records s).transitions ∧ (m.records s).test t a = true ∧
        (m.records t).guard a = true := by
    rw [hfil]
    simp [List.mem_filter, and_assoc]
  refine ⟨hmem, hfil, ?_, ?_⟩
  · intro hg hin
    have hguard := (hmem.mp hin).2.2
    rw [hg] at hguard
    exact Bool.false_ne_true hguard
  · intro tr c2 hsel heq
    by_cases he : (allowed_transitions m a s).isEmpty = true
    · have hbad : (smTransition m ⟨a, s⟩).2 =
          Except.error (Exc.reject (some s)) := by
        simp [smTransition, he]
      rw [heq] at hbad
      simp at hbad
    · have hok : (smTransition m ⟨a, s⟩).2 =
          Except.ok ⟨a, m.select s (allowed_transitions m a s)⟩ := by
        simp [smTransition, he]
      rw [heq] at hok
      have hc2 : c2 = ⟨a, m.select s (allowed_transitions m a s)⟩ :=
        Except.ok.inj hok
      rw [hc2, hsel]
      simp only
      rcases hl : allowed_transitions m a s with _ | ⟨x, xs⟩
      · rw [hl] at he
        simp at he
      · simp [select_transition_default]

/-- Witness for Claim C1 at the concrete machine `mGuard`: target `1` has
a false guard and is excluded from the eligible list, while the step
enters state `2`, a member of the list. -/
theorem eligible_transitions_characterized_witness :
    1 ∉ allowed_transitions mGuard () 0 ∧
    (2 : Nat) ∈ allowed_transitions mGuard () 0 := by
  have h := eligible_transitions_characterized mGuard () 0 1
  refine ⟨h.2.2.1 (by decide), ?_⟩
  have h2 := h.2.2.2 [Ev.exit 0, Ev.preSelect 0 [2], Ev.trans 0 2, Ev.enter 2]
      ⟨(), 2⟩ rfl (by decide)
  simpa using h2

/-- Claim C2: a machine whose start state has no admissible transition
(activity raises nothing, every transition fails its test or its target
guard) rejects: the default no-transition hook raises `Reject` naming the
stuck state, `run()` returns failure, and the only entry notification in
the whole run is the one for the start state. -/
theorem stuck_start_rejected (m : Machine α S) (fuel : Nat) (a a1 : α) (s : S)
    (hact : (m.records s).activity a = (a1, none))
    (hstuck : allowed_transitions m a1 s = []) :
    smRun m (fuel + 1) a s =
      ([Ev.enter s, Ev.act s, Ev.noTrans s, Ev.exit s, Ev.rejected (some s)],
       ⟨a1, s⟩, RunResult.rejected) ∧
    (smRun m (fuel + 1) a s).1.filterMap entered? = [s] := by
  have h1 : smTransition m ⟨a1, s⟩ =
      ([Ev.noTrans s], Except.error (Exc.reject (some s))) := by
    simp [smTransition, hstuck]
  have h2 : smRunAux m (fuel + 1) ⟨a, s⟩ =
      ([Ev.act s, Ev.noTrans s], ⟨a1, s⟩, AuxOut.sig (Exc.reject (some s))) := by
    simp [smRunAux, hact, h1]
  have h3 : smRun m (fuel + 1) a s =
      ([Ev.enter s, Ev.act s, Ev.noTrans s, Ev.exit s, Ev.rejected (some s)],
       ⟨a1, s⟩, RunResult.rejected) := by
    simp [smRun, h2]
  refine ⟨h3, ?_⟩
  rw [h3]
  simp [entered?]

/-- Witness for Claim C2: the concrete machine `mStuck` (one transition
from the start state, its test true but the target guard false). -/
theorem stuck_start_rejected_witness :
    smRun mStuck 3 () 0 =
      ([Ev.enter 0, Ev.act 0, Ev.noTrans 0, Ev.exit 0, Ev.rejected (some 0)],
       ⟨(), 0⟩, RunResult.rejected) ∧
    (smRun mStuck 3 () 0).1.filterMap entered? = [0] :=
  stuck_start_rejected mStuck 2 () () 0 (by decide) (by decide)

/-- Claim C3: on a step with a non-empty eligible list the engine fires the
exit notification for the current state, selects exactly one candidate
(the pre-select notification fires in between; the default selection
returns the first candidate in declaration order), fires the transition
notification with the pair of states, sets the current state to the chosen
target and fires the entry notification for it, in exactly this order. -/
theorem transition_step_event_order [Inhabited S] (m : Machine α S)
    (c : Cfg α S) (h : allowed_transitions m c.app c.cur ≠ []) :
    smTransition m c =
      ([Ev.exit c.cur,
        Ev.preSelect c.cur (allowed_transitions m c.app c.cur),
        Ev.trans c.cur (m.select c.cur (allowed_transitions m c.app c.cur)),
        Ev.enter (m.select c.cur (allowed_transitions m c.app c.cur))],
       Except.ok ⟨c.app, m.select c.cur (allowed_transitions m c.app c.cur)⟩) ∧
    (m.select = select_transition_default →
      ∃ rest, allowed_transitions m c.app c.cur =
        m.select c.cur (allowed_transitions m c.app c.cur) :: rest) := by
  have he : ¬ (allowed_transitions m c.app c.cur).isEmpty = true := by
    simp only [List.isEmpty_iff]
    exact h
  constructor
  · simp [smTransition, he]
  · intro hsel
    rcases hl : allowed_transitions m c.app c.cur with _ | ⟨x, xs⟩
    · exact absurd hl h
    · exact ⟨xs, by simp [hsel, select_transition_default, hl]⟩

/-- Witness for Claim C3 at the concrete machine `mGuard` in state `0`. -/
theorem transition_step_event_order_witness :
    smTransition mGuard ⟨(), 0⟩ =
      ([Ev.exit 0, Ev.preSelect 0 (allowed_transitions mGuard () 0),
        Ev.trans 0 (mGuard.select 0 (allowed_transitions mGuard () 0)),
        Ev.enter (mGuard.select 0 (allowed_transitions mGuard () 0))],
       Except.ok ⟨(), mGuard.select 0 (allowed_transitions mGuard () 0)⟩) ∧
    (mGuard.select = select_transition_default →
      ∃ rest, allowed_transitions mGuard () 0 =
        mGuard.select 0 (allowed_transitions mGuard () 0) :: rest) :=
  transition_step_event_order mGuard ⟨(), 0⟩ (by decide)

/-- Claim C10: whenever `run()` terminates with Accept or Reject, the
events after the loop's trace are exactly the exit notification for the
then-current state followed by the single terminal notification — the
exit fires once, after the terminal signal is caught and before
`on_accept` / `on_reject` — and no terminal notification occurs anywhere
earlier in the trace. -/
theorem terminal_exit_then_notification (m : Machine α S) (fuel : Nat)
    (a : α) (s : S)
    (h : (smRun m fuel a s).2.2 = RunResult.accepted ∨
         (smRun m fuel a s).2.2 = RunResult.rejected) :
    (∃ last, (smRun m fuel a s).1 =
        (Ev.enter s :: (smRunAux m fuel ⟨a, s⟩).1) ++
          [Ev.exit (smRun m fuel a s).2.1.cur, last] ∧
      (last = Ev.accepted ∨ ∃ d, last = Ev.rejected d)) ∧
    ∀ e ∈ Ev.enter s :: (smRunAux m fuel ⟨a, s⟩).1,
      e ≠ Ev.accepted ∧ ∀ d, e ≠ Ev.rejected d := by
  have hterm : ∀ e ∈ Ev.enter s :: (smRunAux m fuel ⟨a, s⟩).1,
      e ≠ Ev.accepted ∧ ∀ d, e ≠ Ev.rejected d := by
    intro e he
    rcases List.mem_cons.mp he with rfl | h2
    · simp
    · exact smRunAux_no_terminal m fuel ⟨a, s⟩ e h2
  refine ⟨?_, hterm⟩
  rcases haux : smRunAux m fuel ⟨a, s⟩ with ⟨tra, ca, out⟩
  cases out with
  | sig e =>
    cases e with
    | accept =>
      refine ⟨Ev.accepted, ?_, Or.inl rfl⟩
      simp [smRun, haux]
    | reject d =>
      refine ⟨Ev.rejected d, ?_, Or.inr ⟨d, rfl⟩⟩
      simp [smRun, haux]
    | backtrack =>
      rcases h with h | h <;> simp [smRun, haux] at h
  | attrError =>
    rcases h with h | h <;> simp [smRun, haux] at h
  | fuelOut =>
    rcases h with h | h <;> simp [smRun, haux] at h

/-- Witness for Claim C10 at the concrete machine `mAccept`, whose start
activity raises Accept. -/
theorem terminal_exit_then_notification_witness :
    (∃ last, (smRun mAccept 3 () 0).1 =
        (Ev.enter 0 :: (smRunAux mAccept 3 ⟨(), 0⟩).1) ++
          [Ev.exit (smRun mAccept 3 () 0).2.1.cur, last] ∧
      (last = Ev.accepted ∨ ∃ d, last = Ev.rejected d)) ∧
    ∀ e ∈ Ev.enter (0 : Nat) :: (smRunAux mAccept 3 ⟨(), 0⟩).1,
      e ≠ Ev.accepted ∧ ∀ d, e ≠ Ev.rejected d :=
  terminal_exit_then_notification mAccept 3 () 0 (Or.inl (by decide))

/-- Claim C9 (code bug): on a machine built without the `Backtracking`
mix-in, an activity raising `Backtrack` is not treated as a `Reject`:
`_run`'s handler calls `self._backtrack()`, which does not exist on
`StateMachine`, so the run escapes with `AttributeError`; `run()` returns
no boolean and no `on_reject` notification fires.  Evaluation of the
embedded code at the failing input. -/
theorem backtrack_without_mixin_attribute_error :
    smRun mBktSignal 5 () 0 =
      ([Ev.enter 0, Ev.act 0], ⟨(), 0⟩, RunResult.attrError) ∧
    RunResult.attrError ≠ RunResult.rejected ∧
    ∀ d, Ev.rejected d ∉ (smRun mBktSignal 5 () 0).1 := by
  refine ⟨by decide, by decide, ?_⟩
  intro d
  rw [show (smRun mBktSignal 5 () 0).1 = [Ev.enter 0, Ev.act 0] from by decide]
  simp

/-- Claim C6 counterexample: in the concrete pushdown machine `mPush`,
where state `1` is a push state, the suspend and init-frame notifications
fire after state `1`'s activity, not before it: the claimed
suspend-before-activity ordering is false on the code. -/
theorem push_suspend_after_activity_cex :
    (pdRun mPush 3 ⟨(), 1, [], none⟩).1 =
      [Ev.enter 1, Ev.act 1, Ev.suspend 1, Ev.initFrame, Ev.exit 1,
       Ev.preSelect 1 [2], Ev.trans 1 2, Ev.enter 2, Ev.act 2, Ev.exit 2,
       Ev.accepted] ∧
    firstBefore (pdRun mPush 3 ⟨(), 1, [], none⟩).1 (Ev.suspend 1) (Ev.act 1)
      = false ∧
    firstBefore (pdRun mPush 3 ⟨(), 1, [], none⟩).1 (Ev.act 1) (Ev.suspend 1)
      = true := by decide

/-- Claim C6 (amended): when the pushdown machine processes a push state's
transition step — which happens after that state's activity has run, as
the loop trace shows — the current frame is suspended (the suspend
notification fires) and pushed onto the frame stack, and a fresh frame
with no recorded state becomes the active frame and receives the
init-frame notification, all before the inherited transition evaluation
runs in the new frame. -/
theorem push_state_frame_discipline (m : PDMachine α S) (fuel : Nat)
    (c : PDCfg α S) (a1 : α)
    (hpush : m.isPush c.cur = true) (hpop : m.isPop c.cur = false)
    (hact : (m.records c.cur).activity c.app = (a1, none)) :
    pdPush ⟨a1, c.cur, c.stack, c.frame⟩ =
      ([Ev.suspend c.cur, Ev.initFrame],
       ⟨a1, c.cur, c.frame :: c.stack, none⟩) ∧
    pdTransition m ⟨a1, c.cur, c.stack, c.frame⟩ =
      (Ev.suspend c.cur :: Ev.initFrame ::
         (pdBaseTransition m ⟨a1, c.cur, c.frame :: c.stack, none⟩).1,
       (pdBaseTransition m ⟨a1, c.cur, c.frame :: c.stack, none⟩).2) ∧
    ∃ rest, (pdRunAux m (fuel + 1) c).1 =
      Ev.act c.cur :: Ev.suspend c.cur :: Ev.initFrame :: rest := by
  have h2 : pdTransition m ⟨a1, c.cur, c.stack, c.frame⟩ =
      (Ev.suspend c.cur :: Ev.initFrame ::
         (pdBaseTransition m ⟨a1, c.cur, c.frame :: c.stack, none⟩).1,
       (pdBaseTransition m ⟨a1, c.cur, c.frame :: c.stack, none⟩).2) := by
    simp [pdTransition, pdPush, hpush, hpop]
  refine ⟨by simp [pdPush], h2, ?_⟩
  rcases hb : pdBaseTransition m ⟨a1, c.cur, c.frame :: c.stack, none⟩
    with ⟨trb, rb⟩
  rw [hb] at h2
  cases rb with
  | error f =>
    refine ⟨trb, ?_⟩
    cases f with
    | sig e => cases e <;> simp [pdRunAux, hact, h2]
    | stateStackEmpty => simp [pdRunAux, hact, h2]
    | keyError => simp [pdRunAux, hact, h2]
  | ok c2 =>
    refine ⟨trb ++ (pdRunAux m fuel c2).1, ?_⟩
    simp [pdRunAux, hact, h2]

/-- Witness for the amended Claim C6 at the concrete machine `mPush`. -/
theorem push_state_frame_discipline_witness :
    pdPush (⟨(), 1, [], none⟩ : PDCfg Unit Nat) =
      ([Ev.suspend 1, Ev.initFrame], ⟨(), 1, [none], none⟩) ∧
    pdTransition mPush ⟨(), 1, [], none⟩ =
      (Ev.suspend 1 :: Ev.initFrame ::
         (pdBaseTransition mPush ⟨(), 1, [none], none⟩).1,
       (pdBaseTransition mPush ⟨(), 1, [none], none⟩).2) ∧
    ∃ rest, (pdRunAux mPush 3 ⟨(), 1, [], none⟩).1 =
      Ev.act 1 :: Ev.suspend 1 :: Ev.initFrame :: rest :=
  push_state_frame_discipline mPush 2 ⟨(), 1, [], none⟩ ()
    (by decide) (by decide) (by decide)

/-- Claim C7: popping with an empty frame stack raises the distinct
`StateStackEmpty` error: the run ends with that error kind, which is
never an ordinary Reject, `run()` does not catch it, no terminal
`on_accept` / `on_reject` notification fires, and the run does not
continue past it. -/
theorem pop_empty_stack_distinct_error (m : PDMachine α S) (fuel : Nat)
    (c : PDCfg α S) (a1 : α)
    (hpop : m.isPop c.cur = true) (hpush : m.isPush c.cur = false)
    (hact : (m.records c.cur).activity c.app = (a1, none))
    (hstack : c.stack = []) :
    pdRun m (fuel + 1) c =
      ([Ev.enter c.cur, Ev.act c.cur], ⟨a1, c.cur, [], some c.cur⟩,
       PDRunResult.stateStackError) ∧
    PDRunResult.stateStackError ≠ PDRunResult.rejected ∧
    ∀ e ∈ (pdRun m (fuel + 1) c).1,
      e ≠ Ev.accepted ∧ ∀ d, e ≠ Ev.rejected d := by
  obtain ⟨a0, s0, st0, f0⟩ := c
  simp only at hpop hpush hact hstack
  subst hstack
  have h1 : pdPop m ⟨a1, s0, [], some s0⟩ =
      ([], Except.error PDFault.stateStackEmpty) := by
    simp [pdPop]
  have h2 : pdTransition m ⟨a1, s0, [], some s0⟩ =
      ([], Except.error PDFault.stateStackEmpty) := by
    simp [pdTransition, hpush, hpop, h1]
  have h3 : pdRun m (fuel + 1) ⟨a0, s0, [], f0⟩ =
      ([Ev.enter s0, Ev.act s0], ⟨a1, s0, [], some s0⟩,
       PDRunResult.stateStackError) := by
    simp [pdRun, pdEnter, pdRunAux, hact, h2]
  refine ⟨h3, by decide, ?_⟩
  intro e he
  rw [h3] at he
  rcases List.mem_cons.mp he with rfl | he2
  · simp
  · rcases List.mem_singleton.mp he2 with rfl
    simp

/-- Witness for Claim C7 at the concrete machine `mPop`, whose start state
is a pop state and whose stack is empty. -/
theorem pop_empty_stack_distinct_error_witness :
    pdRun mPop 3 ⟨(), 0, [], none⟩ =
      ([Ev.enter 0, Ev.act 0], ⟨(), 0, [], some 0⟩,
       PDRunResult.stateStackError) ∧
    PDRunResult.stateStackError ≠ PDRunResult.rejected ∧
    ∀ e ∈ (pdRun mPop 3 ⟨(), 0, [], none⟩).1,
      e ≠ Ev.accepted ∧ ∀ d, e ≠ Ev.rejected d :=
  pop_empty_stack_distinct_error mPop 2 ⟨(), 0, [], none⟩ ()
    (by decide) (by decide) (by decide) rfl

/-- Claim C8: `accept_test` on a pushdown machine returns false whenever
the frame stack is non-empty, whatever the rest of the accept chain
returns; in particular reaching end of input (empty current symbol, as
`InputTape.accept_test` checks) while frames remain suspended is never
acceptance. -/
theorem accept_test_false_with_frames (c : PDCfg α S) (superTest : Bool)
    (symbol : String) (h : c.stack ≠ []) :
    pd_accept_test c superTest = false ∧
    tape_accept_test symbol (pd_accept_test c sm_accept_test) = false := by
  have hl : 0 < c.stack.length := List.length_pos.mpr h
  have h1 : ∀ b, pd_accept_test c b = false := by
    intro b
    simp [pd_accept_test, hl]
  refine ⟨h1 superTest, ?_⟩
  by_cases hs : symbol = ""
  · simp [tape_accept_test, hs, h1]
  · simp [tape_accept_test, hs]

/-- Witness for Claim C8: a configuration with one suspended frame, at end
of input. -/
theorem accept_test_false_with_frames_witness :
    pd_accept_test (⟨(), 0, [some 1], none⟩ : PDCfg Unit Nat) true = false ∧
    tape_accept_test ""
      (pd_accept_test (⟨(), 0, [some 1], none⟩ : PDCfg Unit Nat)
        sm_accept_test) = false :=
  accept_test_false_with_frames ⟨(), 0, [some 1], none⟩ true "" (by decide)

/-- Claim C4 (code bug): with the `Backtracking` mix-in present, a raised
`Backtrack` never reaches the track-scanning algorithm:
`Backtracking._backtrack` first calls `self.exit()`, which does not exist
on the combined class (`StateMachine` has `_exit`), so the run aborts
with `AttributeError` even when the track holds an occurrence with
untried transitions; no undo or exhaustion hook fires and the run does
not end in Reject.  Evaluation of the embedded code at the failing
input. -/
theorem backtrack_crashes_before_scan :
    btRun mBktSignal 5 ⟨(), 0, [⟨0, [1]⟩]⟩ =
      ([Ev.enter 0, Ev.act 0], ⟨(), 0, [⟨0, [1]⟩]⟩, RunResult.attrError) ∧
    RunResult.attrError ≠ RunResult.rejected := by decide

/-- Claim C5 (code bug): the engine never invokes the mix-in's capture
hooks `_bt_on_enter_state` / `_bt_select_transition`, so across a run of
the combined machine that enters states `0`, `1` and `2` the track stays
empty: no `StateOccurrence` is ever created, recorded on, or consumed.
Evaluation of the embedded code at the failing input. -/
theorem track_never_populated :
    (btRun mLine 5 ⟨(), 0, []⟩).1.filterMap entered? = [0, 1, 2] ∧
    (btRun mLine 5 ⟨(), 0, []⟩).2.1.track = [] ∧
    (btRun mLine 5 ⟨(), 0, []⟩).2.2 = RunResult.accepted := by decide

end PyCog
